import Mathlib

/-!
Verification of the vendor catalog importer (`scripts/imports/upload_products.py`).

The script defines `insert_products(csv_file, vendor_id)`, which loads a CSV
file with pandas, maps each row to a product document carrying the eleven
fields `vendor, manufacturer, model, speed, description, cost, installation,
profit_margin, min_volume, max_volume, total_machine_cost`, submits the
collected documents in one `insert_many` call when the list is non-empty, and
prints one success line; a single `except Exception` handler around the whole
body prints one error line instead.  The script then invokes `insert_products`
five times, once per (file, vendor) pair.

We model the external world of one invocation (the outcome of `pd.read_csv`
and the outcome of `collection.insert_many`) explicitly, exceptions as an
inductive `Exn` (all of them ordinary `Exception` subclasses in Python), and
the observable behaviour of an invocation as the console lines it prints, the
bulk-write calls it issues, and the count of rows it confirms inserted.
-/

namespace UploadProducts

/-- A loaded data row, as an ordered association list from column header to
cell value, mirroring a pandas row's name-indexed access `row["Header"]`. -/
abbrev Row := List (String × String)

/-- Lookup by exact header name (the first binding wins), mirroring
`row[c]`; `none` models the `KeyError` case of a missing column. -/
def rowGet (row : Row) (c : String) : Option String :=
  match row with
  | [] => none
  | (k, v) :: rest => if k = c then some v else rowGet rest c

/-- The ten required source columns, in the order the script's dict literal
reads them with `row[...]`. -/
def requiredColumns : List String :=
  ["Manufacturer", "Model", "Speed", "Description", "Cost",
   "Installation", "Profit Margin", "Min Volume", "Max Volume",
   "Total Machine Cost"]

/-- The destination field name the script's dict literal pairs with each
source column (for instance, `"profit_margin": row["Profit Margin"]`). -/
def fieldName : String → String
  | "Manufacturer" => "manufacturer"
  | "Model" => "model"
  | "Speed" => "speed"
  | "Description" => "description"
  | "Cost" => "cost"
  | "Installation" => "installation"
  | "Profit Margin" => "profit_margin"
  | "Min Volume" => "min_volume"
  | "Max Volume" => "max_volume"
  | "Total Machine Cost" => "total_machine_cost"
  | s => s

/-- The Python exceptions the script can meet, every one an ordinary
`Exception` subclass caught by the script's single handler: `KeyError` from
`row[...]` on a missing column, a load failure raised by `pd.read_csv`, and
a write failure raised by `collection.insert_many`. -/
inductive Exn where
  | keyError (column : String)
  | loadError (msg : String)
  | writeError (msg : String)
deriving DecidableEq, Repr

/-- One column access `row[c]` of the dict literal: the cell value, or a
raised `KeyError` when the column is absent. -/
def getField (row : Row) (c : String) : Except Exn String :=
  match rowGet row c with
  | some v => Except.ok v
  | none => Except.error (Exn.keyError c)

/-- The ten `"field": row["Column"]` entries of the script's dict literal,
evaluated left to right: the first missing column raises its `KeyError` and
no later column is read. -/
def mapFields (row : Row) : List String → Except Exn Row
  | [] => Except.ok []
  | c :: cs =>
    match getField row c with
    | Except.error e => Except.error e
    | Except.ok v =>
      match mapFields row cs with
      | Except.error e => Except.error e
      | Except.ok rest => Except.ok ((fieldName c, v) :: rest)

/-- The whole dict literal building `product` for one row: the `"vendor":
vendor_id` entry followed by the ten mapped column entries, in the literal's
key order. -/
def mapRow (vendor_id : String) (row : Row) : Except Exn Row :=
  match mapFields row requiredColumns with
  | Except.error e => Except.error e
  | Except.ok fields => Except.ok (("vendor", vendor_id) :: fields)

/-- The `for _, row in df.iterrows(): products.append(product)` loop: rows
are mapped in file order and appended in that order; the first row whose
mapping raises aborts the loop with that exception. -/
def mapRows (vendor_id : String) : List Row → Except Exn (List Row)
  | [] => Except.ok []
  | r :: rs =>
    match mapRow vendor_id r with
    | Except.error e => Except.error e
    | Except.ok p =>
      match mapRows vendor_id rs with
      | Except.error e => Except.error e
      | Except.ok ps => Except.ok (p :: ps)

/-- The external world of one invocation: what `pd.read_csv(csv_file)` yields
(the ordered data rows, or a raised load error's message) and what
`collection.insert_many` would do if called (succeed, or raise a write
error's message). -/
structure Env where
  loadResult : Except String (List Row)
  writeOutcome : Except String Unit

/-- The success line the script prints after a successful bulk write. -/
def successLine (csv_file vendor_id : String) (n : Nat) : String :=
  "✅ Inserted " ++ toString n ++ " products from " ++ csv_file ++
    " for Vendor " ++ vendor_id ++ "."

/-- The text Python's `str(e)` interpolates into the error line. -/
def exnMessage : Exn → String
  | Exn.keyError c => "'" ++ c ++ "'"
  | Exn.loadError m => m
  | Exn.writeError m => m

/-- The error line printed by the script's `except Exception` handler; note
it interpolates only the file name and the exception, not the vendor id. -/
def errorLine (csv_file : String) (e : Exn) : String :=
  "❌ Error processing " ++ csv_file ++ ": " ++ exnMessage e

/-- The observable behaviour of one `insert_products` invocation: the console
lines printed, the bulk-write calls issued (each one the batch submitted to
`insert_many`), and the number of rows confirmed inserted (the count the
success line reports; zero when no success line is printed). -/
structure InvocationResult where
  consoleLines : List String
  writes : List (List Row)
  confirmed : Nat
deriving DecidableEq, Repr

/-- The body of the `try` block: load, map every row, and, when the product
list is non-empty, issue the single `insert_many` call and print the success
line.  Returns the write calls issued together with either the console lines
printed and the confirmed count, or the exception the body raises. -/
def tryBody (csv_file vendor_id : String) (env : Env) :
    List (List Row) × Except Exn (List String × Nat) :=
  match env.loadResult with
  | Except.error m => ([], Except.error (Exn.loadError m))
  | Except.ok df =>
    match mapRows vendor_id df with
    | Except.error e => ([], Except.error e)
    | Except.ok products =>
      if products = [] then ([], Except.ok ([], 0))
      else
        match env.writeOutcome with
        | Except.ok _ =>
            ([products],
             Except.ok ([successLine csv_file vendor_id products.length],
                        products.length))
        | Except.error m => ([products], Except.error (Exn.writeError m))

/-- One `insert_products(csv_file, vendor_id)` invocation with the handler
applied: any exception the body raises is caught by the single
`except Exception` clause, which prints the error line. -/
def insert_products (csv_file vendor_id : String) (env : Env) :
    InvocationResult :=
  match tryBody csv_file vendor_id env with
  | (ws, Except.ok (lines, n)) => ⟨lines, ws, n⟩
  | (ws, Except.error e) => ⟨[errorLine csv_file e], ws, 0⟩

/-- One invocation viewed from the caller, before assuming anything about the
handler: `Except.error` would mean an exception escaped `insert_products`. -/
def insert_products_run (csv_file vendor_id : String) (env : Env) :
    Except Exn InvocationResult :=
  match tryBody csv_file vendor_id env with
  | (ws, Except.ok (lines, n)) => Except.ok ⟨lines, ws, n⟩
  | (ws, Except.error e) => Except.ok ⟨[errorLine csv_file e], ws, 0⟩

/-- The script's top level: the sequence of `insert_products` calls executed
in order, where an exception escaping one call would abort all later ones. -/
def runBatch : List (String × String × Env) → Except Exn (List InvocationResult)
  | [] => Except.ok []
  | (f, v, env) :: rest =>
    match insert_products_run f v env with
    | Except.error e => Except.error e
    | Except.ok r =>
      match runBatch rest with
      | Except.error e => Except.error e
      | Except.ok rs => Except.ok (r :: rs)

/-- Every row of the file carries every required column. -/
def WellFormed (rows : List Row) : Prop :=
  ∀ r ∈ rows, ∀ c ∈ requiredColumns, (rowGet r c).isSome

instance (rows : List Row) : Decidable (WellFormed rows) := by
  unfold WellFormed; infer_instance

/-! Concrete fixtures, used by witnesses and counterexamples.  The sample row
is the worked example of the specification's testable-properties section. -/

/-- A well-formed data row carrying all ten required columns. -/
def sampleRow : Row :=
  [("Manufacturer", "Acme"), ("Model", "X100"), ("Speed", "30"),
   ("Description", "fast printer"), ("Cost", "500"), ("Installation", "50"),
   ("Profit Margin", "0.2"), ("Min Volume", "1"), ("Max Volume", "100"),
   ("Total Machine Cost", "600")]

/-- The product document `insert_products` builds from `sampleRow` with
vendor id `"v1"`. -/
def sampleProduct : Row :=
  [("vendor", "v1"), ("manufacturer", "Acme"), ("model", "X100"),
   ("speed", "30"), ("description", "fast printer"), ("cost", "500"),
   ("installation", "50"), ("profit_margin", "0.2"), ("min_volume", "1"),
   ("max_volume", "100"), ("total_machine_cost", "600")]

/-- The product document `insert_products` builds from `sampleRow` with
vendor id `"VEND42"`. -/
def sampleProduct42 : Row :=
  [("vendor", "VEND42"), ("manufacturer", "Acme"), ("model", "X100"),
   ("speed", "30"), ("description", "fast printer"), ("cost", "500"),
   ("installation", "50"), ("profit_margin", "0.2"), ("min_volume", "1"),
   ("max_volume", "100"), ("total_machine_cost", "600")]

/-- Like `sampleRow` but with the required `Model` column absent. -/
def rowMissingModel : Row :=
  [("Manufacturer", "Acme"), ("Speed", "30"),
   ("Description", "fast printer"), ("Cost", "500"), ("Installation", "50"),
   ("Profit Margin", "0.2"), ("Min Volume", "1"), ("Max Volume", "100"),
   ("Total Machine Cost", "600")]

/-- A world where the file loads as one well-formed row and the write
succeeds. -/
def envOneRow : Env := ⟨Except.ok [sampleRow], Except.ok ()⟩

/-- A world where the file loads with zero data rows. -/
def envEmptyFile : Env := ⟨Except.ok [], Except.ok ()⟩

/-- A world where the file loads as one well-formed row but the bulk write
raises. -/
def envWriteFail : Env := ⟨Except.ok [sampleRow], Except.error "network down"⟩

/-- A world where the file loads but its second row is missing `Model`. -/
def envBadRow : Env := ⟨Except.ok [sampleRow, rowMissingModel], Except.ok ()⟩

/-- A world where loading the file itself raises. -/
def envLoadFail : Env := ⟨Except.error "File not found", Except.ok ()⟩

/-! Inversion and shape lemmas about the row mapping. -/

/-- A successful column access is exactly a present column. -/
theorem getField_ok_iff (row : Row) (c v : String) :
    getField row c = Except.ok v ↔ rowGet row c = some v := by
  unfold getField
  cases h : rowGet row c <;> simp

/-- A failed column access raises the `KeyError` of that column and means the
column is absent. -/
theorem getField_error (row : Row) (c : String) (e : Exn)
    (h : getField row c = Except.error e) :
    e = Exn.keyError c ∧ rowGet row c = none := by
  unfold getField at h
  cases hg : rowGet row c <;> rw [hg] at h <;> simp_all

/-- Inversion for a successful `mapFields` step. -/
theorem mapFields_cons_ok (row : Row) (c0 : String) (cs : List String)
    (l : Row) (h : mapFields row (c0 :: cs) = Except.ok l) :
    ∃ v rest, rowGet row c0 = some v ∧ mapFields row cs = Except.ok rest ∧
      l = (fieldName c0, v) :: rest := by
  unfold mapFields at h
  cases hg : getField row c0 with
  | error e => rw [hg] at h; simp at h
  | ok v =>
    rw [hg] at h
    cases hr : mapFields row cs with
    | error e => rw [hr] at h; simp at h
    | ok rest =>
      rw [hr] at h
      simp only [Except.ok.injEq] at h
      exact ⟨v, rest, (getField_ok_iff row c0 v).mp hg, rfl, h.symm⟩

/-- When every listed column is present, `mapFields` succeeds. -/
theorem mapFields_ok_of_isSome (row : Row) :
    ∀ cs : List String, (∀ c ∈ cs, (rowGet row c).isSome) →
    ∃ l, mapFields row cs = Except.ok l := by
  intro cs
  induction cs with
  | nil => exact fun _ => ⟨[], rfl⟩
  | cons c0 cs ih =>
    intro h
    obtain ⟨v, hv⟩ := Option.isSome_iff_exists.mp (h c0 (by simp))
    obtain ⟨l, hl⟩ := ih fun c hc => h c (by simp [hc])
    exact ⟨(fieldName c0, v) :: l, by simp [mapFields, getField, hv, hl]⟩

/-- A `mapFields` failure is the `KeyError` of some listed absent column. -/
theorem mapFields_error (row : Row) :
    ∀ (cs : List String) (e : Exn), mapFields row cs = Except.error e →
    ∃ c ∈ cs, e = Exn.keyError c ∧ rowGet row c = none := by
  intro cs
  induction cs with
  | nil => intro e h; simp [mapFields] at h
  | cons c0 cs ih =>
    intro e h
    unfold mapFields at h
    cases hg : getField row c0 with
    | error e0 =>
      rw [hg] at h
      simp only [Except.error.injEq] at h
      obtain ⟨he, hn⟩ := getField_error row c0 e0 hg
      exact ⟨c0, by simp, by rw [← h]; exact he, hn⟩
    | ok v =>
      rw [hg] at h
      cases hr : mapFields row cs with
      | error e1 =>
        rw [hr] at h
        simp only [Except.error.injEq] at h
        obtain ⟨c, hc, he, hn⟩ := ih e1 hr
        exact ⟨c, by simp [hc], by rw [← h]; exact he, hn⟩
      | ok rest => rw [hr] at h; simp at h

/-- A listed absent column makes `mapFields` fail with some `KeyError`. -/
theorem mapFields_error_of_missing (row : Row) :
    ∀ (cs : List String) (c : String), c ∈ cs → rowGet row c = none →
    ∃ k, mapFields row cs = Except.error (Exn.keyError k) := by
  intro cs
  induction cs with
  | nil => simp
  | cons c0 cs ih =>
    intro c hc hn
    cases hg : getField row c0 with
    | error e0 =>
      obtain ⟨he, _⟩ := getField_error row c0 e0 hg
      exact ⟨c0, by simp [mapFields, hg, he]⟩
    | ok v =>
      rcases List.mem_cons.mp hc with rfl | hmem
      · rw [(getField_ok_iff row c v).mp hg] at hn; cases hn
      · obtain ⟨k, hk⟩ := ih c hmem hn
        exact ⟨k, by simp [mapFields, hg, hk]⟩

/-- The keys of a successful `mapFields` result are exactly the destination
names of the listed columns, in order. -/
theorem mapFields_keys (row : Row) :
    ∀ (cs : List String) (l : Row), mapFields row cs = Except.ok l →
    l.map Prod.fst = cs.map fieldName := by
  intro cs
  induction cs with
  | nil => intro l h; simp [mapFields] at h; simp [← h]
  | cons c0 cs ih =>
    intro l h
    obtain ⟨v, rest, _, hr, rfl⟩ := mapFields_cons_ok row c0 cs l h
    simp [ih rest hr]

/-- When the destination names of the listed columns are distinct, each
mapped field holds its source column's value verbatim. -/
theorem mapFields_rowGet (row : Row) :
    ∀ (cs : List String) (l : Row), mapFields row cs = Except.ok l →
    (cs.map fieldName).Nodup →
    ∀ c ∈ cs, rowGet l (fieldName c) = rowGet row c := by
  intro cs
  induction cs with
  | nil => simp
  | cons c0 cs ih =>
    intro l h hnd c hc
    obtain ⟨v, rest, hv, hr, rfl⟩ := mapFields_cons_ok row c0 cs l h
    simp only [List.map_cons, List.nodup_cons] at hnd
    rcases List.mem_cons.mp hc with rfl | hmem
    · simp [rowGet, hv]
    · have hne : fieldName c0 ≠ fieldName c := by
        intro heq
        exact hnd.1 (heq ▸ List.mem_map_of_mem fieldName hmem)
      simp only [rowGet, if_neg hne]
      exact ih rest hr hnd.2 c hmem

/-- Every binding of a successful `mapFields` result comes from one of the
listed columns of the source row. -/
theorem mapFields_mem (row : Row) :
    ∀ (cs : List String) (l : Row), mapFields row cs = Except.ok l →
    ∀ kv ∈ l, ∃ c ∈ cs, kv.1 = fieldName c ∧ rowGet row c = some kv.2 := by
  intro cs
  induction cs with
  | nil => intro l h; simp [mapFields] at h; subst h; simp
  | cons c0 cs ih =>
    intro l h kv hkv
    obtain ⟨v, rest, hv, hr, rfl⟩ := mapFields_cons_ok row c0 cs l h
    rcases List.mem_cons.mp hkv with rfl | hmem
    · exact ⟨c0, by simp, rfl, hv⟩
    · obtain ⟨c, hc, h1, h2⟩ := ih rest hr kv hmem
      exact ⟨c, by simp [hc], h1, h2⟩

/-- Inversion for a successful `mapRow`: the document is the vendor binding
followed by the mapped fields. -/
theorem mapRow_ok_inv (v : String) (row p : Row)
    (h : mapRow v row = Except.ok p) :
    ∃ fields, mapFields row requiredColumns = Except.ok fields ∧
      p = ("vendor", v) :: fields := by
  unfold mapRow at h
  cases hf : mapFields row requiredColumns with
  | error e => rw [hf] at h; simp at h
  | ok fields =>
    rw [hf] at h
    simp only [Except.ok.injEq] at h
    exact ⟨fields, rfl, h.symm⟩

/-- A row carrying every required column maps successfully. -/
theorem mapRow_ok_of_wfRow (v : String) (row : Row)
    (h : ∀ c ∈ requiredColumns, (rowGet row c).isSome) :
    ∃ p, mapRow v row = Except.ok p := by
  obtain ⟨l, hl⟩ := mapFields_ok_of_isSome row requiredColumns h
  exact ⟨("vendor", v) :: l, by simp [mapRow, hl]⟩

/-- A `mapRow` failure is the `KeyError` of some absent required column. -/
theorem mapRow_error (v : String) (row : Row) (e : Exn)
    (h : mapRow v row = Except.error e) :
    ∃ c ∈ requiredColumns, e = Exn.keyError c ∧ rowGet row c = none := by
  unfold mapRow at h
  cases hf : mapFields row requiredColumns with
  | error e0 =>
    rw [hf] at h
    simp only [Except.error.injEq] at h
    exact h ▸ mapFields_error row requiredColumns e0 hf
  | ok fields => rw [hf] at h; simp at h

/-- An absent required column makes the row mapping raise a `KeyError`. -/
theorem mapRow_error_of_missing (v : String) (row : Row) (c : String)
    (hc : c ∈ requiredColumns) (hn : rowGet row c = none) :
    ∃ k, mapRow v row = Except.error (Exn.keyError k) := by
  obtain ⟨k, hk⟩ := mapFields_error_of_missing row requiredColumns c hc hn
  exact ⟨k, by simp [mapRow, hk]⟩

/-- The vendor field of every mapped document is the vendor id argument. -/
theorem mapRow_vendor (v : String) (row p : Row)
    (h : mapRow v row = Except.ok p) : rowGet p "vendor" = some v := by
  obtain ⟨fields, _, rfl⟩ := mapRow_ok_inv v row p h
  simp [rowGet]

/-- Each of the ten mapped fields of a mapped document equals the source
row's column value verbatim. -/
theorem mapRow_fields (v : String) (row p : Row)
    (h : mapRow v row = Except.ok p) :
    ∀ c ∈ requiredColumns, rowGet p (fieldName c) = rowGet row c := by
  obtain ⟨fields, hf, rfl⟩ := mapRow_ok_inv v row p h
  intro c hc
  have hvendor : "vendor" ≠ fieldName c := by
    revert hc
    have : ∀ c ∈ requiredColumns, "vendor" ≠ fieldName c := by decide
    exact this c
  simp only [rowGet, if_neg hvendor]
  exact mapFields_rowGet row requiredColumns fields hf (by decide) c hc

/-- The key sequence of every mapped document: vendor plus the ten mapped
product fields, eleven in all. -/
theorem mapRow_keys (v : String) (row p : Row)
    (h : mapRow v row = Except.ok p) :
    p.map Prod.fst =
      ["vendor", "manufacturer", "model", "speed", "description", "cost",
       "installation", "profit_margin", "min_volume", "max_volume",
       "total_machine_cost"] := by
  obtain ⟨fields, hf, rfl⟩ := mapRow_ok_inv v row p h
  simp [mapFields_keys row requiredColumns fields hf]
  rfl

/-- Every binding of a mapped document is the vendor binding or a verbatim
copy of one of the ten required columns. -/
theorem mapRow_mem (v : String) (row p : Row)
    (h : mapRow v row = Except.ok p) :
    ∀ kv ∈ p, kv = ("vendor", v) ∨
      ∃ c ∈ requiredColumns, kv.1 = fieldName c ∧ rowGet row c = some kv.2 := by
  obtain ⟨fields, hf, rfl⟩ := mapRow_ok_inv v row p h
  intro kv hkv
  rcases List.mem_cons.mp hkv with rfl | hmem
  · exact Or.inl rfl
  · exact Or.inr (mapFields_mem row requiredColumns fields hf kv hmem)

/-- Inversion for a successful `mapRows` step. -/
theorem mapRows_cons_ok (v : String) (r : Row) (rs : List Row) (ps : List Row)
    (h : mapRows v (r :: rs) = Except.ok ps) :
    ∃ p ps', mapRow v r = Except.ok p ∧ mapRows v rs = Except.ok ps' ∧
      ps = p :: ps' := by
  unfold mapRows at h
  cases hm : mapRow v r with
  | error e => rw [hm] at h; simp at h
  | ok p =>
    rw [hm] at h
    cases hr : mapRows v rs with
    | error e => rw [hr] at h; simp at h
    | ok ps' =>
      rw [hr] at h
      simp only [Except.ok.injEq] at h
      exact ⟨p, ps', rfl, rfl, h.symm⟩

/-- A well-formed file maps successfully. -/
theorem mapRows_ok_of_wf (v : String) (rows : List Row)
    (h : WellFormed rows) : ∃ ps, mapRows v rows = Except.ok ps := by
  induction rows with
  | nil => exact ⟨[], rfl⟩
  | cons r rs ih =>
    obtain ⟨p, hp⟩ := mapRow_ok_of_wfRow v r (h r (by simp))
    obtain ⟨ps, hps⟩ := ih fun r' hr' c hc => h r' (by simp [hr']) c hc
    exact ⟨p :: ps, by simp [mapRows, hp, hps]⟩

/-- A successful mapping produces one document per data row. -/
theorem mapRows_length (v : String) :
    ∀ (rows ps : List Row), mapRows v rows = Except.ok ps →
    ps.length = rows.length := by
  intro rows
  induction rows with
  | nil => intro ps h; simp [mapRows] at h; simp [← h]
  | cons r rs ih =>
    intro ps h
    obtain ⟨p, ps', _, hr, rfl⟩ := mapRows_cons_ok v r rs ps h
    simp [ih ps' hr]

/-- A successful mapping preserves file order: the i-th document comes from
the i-th data row. -/
theorem mapRows_get (v : String) :
    ∀ (rows ps : List Row), mapRows v rows = Except.ok ps →
    ∀ (i : Nat) (h1 : i < ps.length) (h2 : i < rows.length),
      mapRow v (rows.get ⟨i, h2⟩) = Except.ok (ps.get ⟨i, h1⟩) := by
  intro rows
  induction rows with
  | nil => intro ps h i h1 h2; simp at h2
  | cons r rs ih =>
    intro ps h i h1 h2
    obtain ⟨p, ps', hp, hr, rfl⟩ := mapRows_cons_ok v r rs ps h
    cases i with
    | zero => simpa using hp
    | succ n =>
      have h1' : n < ps'.length := by simpa using h1
      have h2' : n < rs.length := by simpa using h2
      simpa using ih ps' hr n h1' h2'

/-- Any `mapRow` failure is a `KeyError`. -/
theorem mapRow_error_is_keyError (v : String) (row : Row) (e : Exn)
    (h : mapRow v row = Except.error e) : ∃ k, e = Exn.keyError k := by
  obtain ⟨c, _, he, _⟩ := mapRow_error v row e h
  exact ⟨c, he⟩

/-- A data row missing a required column makes the whole file's mapping fail
with some `KeyError`. -/
theorem mapRows_error_of_bad (v : String) :
    ∀ (rows : List Row) (r : Row) (c : String), r ∈ rows →
    c ∈ requiredColumns → rowGet r c = none →
    ∃ k, mapRows v rows = Except.error (Exn.keyError k) := by
  intro rows
  induction rows with
  | nil => simp
  | cons r0 rs ih =>
    intro r c hr hc hn
    cases hm : mapRow v r0 with
    | error e =>
      obtain ⟨k, rfl⟩ := mapRow_error_is_keyError v r0 e hm
      exact ⟨k, by simp [mapRows, hm]⟩
    | ok p =>
      rcases List.mem_cons.mp hr with rfl | hmem
      · obtain ⟨k, hk⟩ := mapRow_error_of_missing v r c hc hn
        rw [hm] at hk
        simp at hk
      · obtain ⟨k, hk⟩ := ih r c hmem hc hn
        exact ⟨k, by simp [mapRows, hm, hk]⟩

/-- Only the empty file maps to an empty document list. -/
theorem mapRows_ok_nil (v : String) (rows : List Row)
    (h : mapRows v rows = Except.ok []) : rows = [] := by
  cases rows with
  | nil => rfl
  | cons r rs =>
    obtain ⟨p, ps', _, _, hcons⟩ := mapRows_cons_ok v r rs [] h
    simp at hcons

/-- Every document of a successfully mapped batch carries the invocation's
vendor id. -/
theorem mapRows_vendor (v : String) :
    ∀ (rows ps : List Row), mapRows v rows = Except.ok ps →
    ∀ p ∈ ps, rowGet p "vendor" = some v := by
  intro rows
  induction rows with
  | nil => intro ps h; simp [mapRows] at h; subst h; simp
  | cons r rs ih =>
    intro ps h p hp
    obtain ⟨p0, ps', hp0, hr, rfl⟩ := mapRows_cons_ok v r rs ps h
    rcases List.mem_cons.mp hp with rfl | hmem
    · exact mapRow_vendor v r p hp0
    · exact ih ps' hr p hmem

/-! Behaviour of one invocation, by case on the external world. -/

/-- A load failure prints one error line, issues no write, confirms
nothing. -/
theorem insert_products_load_error (f v m : String) (env : Env)
    (h : env.loadResult = Except.error m) :
    insert_products f v env = ⟨[errorLine f (Exn.loadError m)], [], 0⟩ := by
  simp [insert_products, tryBody, h]

/-- A mapping failure prints one error line, issues no write, confirms
nothing. -/
theorem insert_products_map_error (f v : String) (env : Env)
    (rows : List Row) (e : Exn)
    (h1 : env.loadResult = Except.ok rows)
    (h2 : mapRows v rows = Except.error e) :
    insert_products f v env = ⟨[errorLine f e], [], 0⟩ := by
  simp [insert_products, tryBody, h1, h2]

/-- A zero-row file prints nothing, issues no write, confirms nothing. -/
theorem insert_products_empty (f v : String) (env : Env)
    (h : env.loadResult = Except.ok []) :
    insert_products f v env = ⟨[], [], 0⟩ := by
  simp [insert_products, tryBody, h, mapRows]

/-- A successful run prints the one success line, issues the one bulk write
of the mapped batch, and confirms its length. -/
theorem insert_products_success (f v : String) (env : Env)
    (rows ps : List Row)
    (h1 : env.loadResult = Except.ok rows)
    (h2 : mapRows v rows = Except.ok ps)
    (h3 : ps ≠ [])
    (h4 : env.writeOutcome = Except.ok ()) :
    insert_products f v env =
      ⟨[successLine f v ps.length], [ps], ps.length⟩ := by
  simp [insert_products, tryBody, h1, h2, h3, h4]

/-- A failed bulk write: the one write call was issued, nothing is
confirmed, one error line is printed, and no retry happens. -/
theorem insert_products_write_error (f v m : String) (env : Env)
    (rows ps : List Row)
    (h1 : env.loadResult = Except.ok rows)
    (h2 : mapRows v rows = Except.ok ps)
    (h3 : ps ≠ [])
    (h4 : env.writeOutcome = Except.error m) :
    insert_products f v env =
      ⟨[errorLine f (Exn.writeError m)], [ps], 0⟩ := by
  simp [insert_products, tryBody, h1, h2, h3, h4]

/-- Every batch an invocation submits is the successful mapping of the rows
its file loaded as. -/
theorem writes_mem (f v : String) (env : Env) (batch : List Row)
    (hb : batch ∈ (insert_products f v env).writes) :
    ∃ rows, env.loadResult = Except.ok rows ∧
      mapRows v rows = Except.ok batch := by
  cases hl : env.loadResult with
  | error m => simp [insert_products_load_error f v m env hl] at hb
  | ok rows =>
    cases hm : mapRows v rows with
    | error e => simp [insert_products_map_error f v env rows e hl hm] at hb
    | ok ps =>
      by_cases hps : ps = []
      · subst hps
        have hnil := mapRows_ok_nil v rows hm
        subst hnil
        simp [insert_products_empty f v env hl] at hb
      · cases hw : env.writeOutcome with
        | ok u =>
          cases u
          rw [insert_products_success f v env rows ps hl hm hps hw] at hb
          simp at hb
          exact ⟨rows, rfl, hb ▸ hm⟩
        | error m =>
          rw [insert_products_write_error f v m env rows ps hl hm hps hw] at hb
          simp at hb
          exact ⟨rows, rfl, hb ▸ hm⟩

/-- The handler of `insert_products` catches every exception the body
raises: the call always returns normally. -/
theorem insert_products_run_eq (f v : String) (env : Env) :
    insert_products_run f v env = Except.ok (insert_products f v env) := by
  unfold insert_products insert_products_run
  rcases h : tryBody f v env with ⟨ws, r⟩
  cases r <;> rfl

/-- The whole batch always runs: every invocation executes and contributes
its own result, in order. -/
theorem runBatch_eq_map (invs : List (String × String × Env)) :
    runBatch invs =
      Except.ok (invs.map fun t => insert_products t.1 t.2.1 t.2.2) := by
  induction invs with
  | nil => rfl
  | cons t rest ih =>
    rcases t with ⟨f, v, env⟩
    simp [runBatch, insert_products_run_eq, ih]

/-- The success line contains the file name. -/
theorem successLine_has_file (f v : String) (n : Nat) :
    f.data <:+: (successLine f v n).data :=
  ⟨("✅ Inserted " ++ toString n ++ " products from ").data,
   (" for Vendor " ++ v ++ ".").data, by
    simp [successLine, String.data_append]⟩

/-- The success line contains the printed inserted-count. -/
theorem successLine_has_count (f v : String) (n : Nat) :
    (toString n).data <:+: (successLine f v n).data :=
  ⟨"✅ Inserted ".data,
   (" products from " ++ f ++ " for Vendor " ++ v ++ ".").data, by
    simp [successLine, String.data_append]⟩

/-- The handler's error line contains the file name. -/
theorem errorLine_has_file (f : String) (e : Exn) :
    f.data <:+: (errorLine f e).data :=
  ⟨"❌ Error processing ".data, (": " ++ exnMessage e).data, by
    simp [errorLine, String.data_append]⟩

/-- The handler's error line contains the underlying cause's text. -/
theorem errorLine_has_cause (f : String) (e : Exn) :
    (exnMessage e).data <:+: (errorLine f e).data :=
  ⟨("❌ Error processing " ++ f ++ ": ").data, [], by
    simp [errorLine, String.data_append]⟩

/-! The claims. -/

/-- C1: for every well-formed input file with R data rows, `insert_products`
maps exactly R records, each record's ten mapped fields equal the
corresponding source row's column values verbatim, and when the bulk write
succeeds the reported inserted-count equals R (the one success line reports
R and R rows are confirmed). -/
theorem C1_wellformed_file_inserts_all_rows (f v : String) (env : Env)
    (rows : List Row)
    (h1 : env.loadResult = Except.ok rows)
    (h2 : WellFormed rows)
    (h3 : env.writeOutcome = Except.ok ()) :
    ∃ ps, mapRows v rows = Except.ok ps ∧ ps.length = rows.length ∧
      (∀ (i : Nat) (hi : i < ps.length) (hi' : i < rows.length),
        ∀ c ∈ requiredColumns,
          rowGet (ps.get ⟨i, hi⟩) (fieldName c) =
            rowGet (rows.get ⟨i, hi'⟩) c) ∧
      (rows ≠ [] →
        (insert_products f v env).consoleLines =
          [successLine f v rows.length] ∧
        (insert_products f v env).confirmed = rows.length ∧
        (insert_products f v env).writes = [ps]) := by
  obtain ⟨ps, hps⟩ := mapRows_ok_of_wf v rows h2
  have hlen := mapRows_length v rows ps hps
  refine ⟨ps, hps, hlen, ?_, ?_⟩
  · intro i hi hi' c hc
    exact mapRow_fields v _ _ (mapRows_get v rows ps hps i hi hi') c hc
  · intro hne
    have hpsne : ps ≠ [] := fun hnil => hne (mapRows_ok_nil v rows (hnil ▸ hps))
    have hres := insert_products_success f v env rows ps h1 hps hpsne h3
    refine ⟨?_, ?_, ?_⟩ <;> simp [hres, hlen]

/-- C1 witness: the specification's worked example, one well-formed row
imported with vendor id `"v1"`. -/
theorem C1_witness :
    envOneRow.loadResult = Except.ok [sampleRow] ∧
    WellFormed [sampleRow] ∧
    envOneRow.writeOutcome = Except.ok () ∧
    (∃ ps, mapRows "v1" [sampleRow] = Except.ok ps ∧
      ps.length = [sampleRow].length ∧
      (∀ (i : Nat) (hi : i < ps.length) (hi' : i < [sampleRow].length),
        ∀ c ∈ requiredColumns,
          rowGet (ps.get ⟨i, hi⟩) (fieldName c) =
            rowGet ([sampleRow].get ⟨i, hi'⟩) c) ∧
      ([sampleRow] ≠ [] →
        (insert_products "vendors_a.csv" "v1" envOneRow).consoleLines =
          [successLine "vendors_a.csv" "v1" [sampleRow].length] ∧
        (insert_products "vendors_a.csv" "v1" envOneRow).confirmed =
          [sampleRow].length ∧
        (insert_products "vendors_a.csv" "v1" envOneRow).writes = [ps])) :=
  ⟨rfl, by decide, rfl,
    C1_wellformed_file_inserts_all_rows "vendors_a.csv" "v1" envOneRow
      [sampleRow] rfl (by decide) rfl⟩

/-- C2: the vendor field of every record in every submitted batch equals the
vendor id argument of that invocation, whatever the file contents (the
theorem holds for every environment, so the value cannot depend on them). -/
theorem C2_vendor_equals_argument (f v : String) (env : Env)
    (batch : List Row) (p : Row)
    (hb : batch ∈ (insert_products f v env).writes)
    (hp : p ∈ batch) :
    rowGet p "vendor" = some v := by
  obtain ⟨rows, _, hm⟩ := writes_mem f v env batch hb
  exact mapRows_vendor v rows batch hm p hp

/-- C2 witness: the concrete one-row import submits `sampleProduct`, whose
vendor field is the vendor id `"v1"` passed to the invocation. -/
theorem C2_witness :
    [sampleProduct] ∈ (insert_products "vendors_a.csv" "v1" envOneRow).writes ∧
    sampleProduct ∈ [sampleProduct] ∧
    rowGet sampleProduct "vendor" = some "v1" :=
  ⟨by decide, by decide,
    C2_vendor_equals_argument "vendors_a.csv" "v1" envOneRow [sampleProduct]
      sampleProduct (by decide) (by decide)⟩

/-- C3: a file containing a data row missing a required column aborts the
whole import: the `KeyError` reaches the same top-level handler as a load
failure (one error line of the handler's shape), no records are written, and
no per-row skip occurs. -/
theorem C3_missing_column_aborts_file (f v : String) (env : Env)
    (rows : List Row) (r : Row) (c : String)
    (h1 : env.loadResult = Except.ok rows)
    (hr : r ∈ rows) (hc : c ∈ requiredColumns) (hn : rowGet r c = none) :
    (insert_products f v env).writes = [] ∧
    (insert_products f v env).confirmed = 0 ∧
    ∃ k, (insert_products f v env).consoleLines =
      [errorLine f (Exn.keyError k)] := by
  obtain ⟨k, hk⟩ := mapRows_error_of_bad v rows r c hr hc hn
  have hres := insert_products_map_error f v env rows (Exn.keyError k) h1 hk
  exact ⟨by simp [hres], by simp [hres], k, by simp [hres]⟩

/-- C3 witness: a two-row file whose second row is missing `Model` writes
nothing and prints one `KeyError` line. -/
theorem C3_witness :
    envBadRow.loadResult = Except.ok [sampleRow, rowMissingModel] ∧
    rowMissingModel ∈ [sampleRow, rowMissingModel] ∧
    "Model" ∈ requiredColumns ∧
    rowGet rowMissingModel "Model" = none ∧
    ((insert_products "f.csv" "v1" envBadRow).writes = [] ∧
     (insert_products "f.csv" "v1" envBadRow).confirmed = 0 ∧
     ∃ k, (insert_products "f.csv" "v1" envBadRow).consoleLines =
       [errorLine "f.csv" (Exn.keyError k)]) :=
  ⟨rfl, by decide, by decide, rfl,
    C3_missing_column_aborts_file "f.csv" "v1" envBadRow
      [sampleRow, rowMissingModel] rowMissingModel "Model"
      rfl (by decide) (by decide) rfl⟩

/-- C4 counterexample: for a file that loads with zero data rows the code
issues no write call, but it also reports nothing at all — the console
output is empty, so no inserted-count of 0 is reported (and the Python
function returns `None`, not a count). -/
theorem C4_counterexample :
    (insert_products "Empty.csv" "v9" envEmptyFile).writes = [] ∧
    (insert_products "Empty.csv" "v9" envEmptyFile).consoleLines = [] := by
  decide

/-- C4 (amended): for every input file with zero data rows no bulk-write
call is issued and nothing is reported as inserted: no console line is
printed and zero rows are confirmed. -/
theorem C4_empty_file_no_write_nothing_reported (f v : String) (env : Env)
    (h : env.loadResult = Except.ok []) :
    insert_products f v env = ⟨[], [], 0⟩ :=
  insert_products_empty f v env h

/-- C4 witness: the concrete zero-row world. -/
theorem C4_witness :
    envEmptyFile.loadResult = Except.ok [] ∧
    insert_products "Empty.csv" "v9" envEmptyFile = ⟨[], [], 0⟩ :=
  ⟨rfl, C4_empty_file_no_write_nothing_reported "Empty.csv" "v9" envEmptyFile rfl⟩

/-- C5: for every sequence of (file, vendor, world) invocations the batch
runs to completion: no exception escapes any invocation, and every
invocation contributes exactly its own result, in order, whatever failures
its own world holds. -/
theorem C5_batch_isolation (invs : List (String × String × Env)) :
    runBatch invs =
      Except.ok (invs.map fun t => insert_products t.1 t.2.1 t.2.2) :=
  runBatch_eq_map invs

/-- C6 counterexample: when the bulk write fails the error line carries the
file name and the cause but not the vendor id — `"VEND42"` occurs nowhere in
the one line printed. -/
theorem C6_counterexample :
    envWriteFail.writeOutcome = Except.error "network down" ∧
    (insert_products "f.csv" "VEND42" envWriteFail).consoleLines =
      ["❌ Error processing f.csv: network down"] ∧
    ¬ ("VEND42".data <:+: "❌ Error processing f.csv: network down".data) :=
  ⟨rfl, by decide, by decide⟩

/-- C6 (amended): when the bulk write fails, exactly the one already-issued
write call exists (no retry), no row is confirmed inserted, and the single
error line contains the file name and the underlying cause — though not the
vendor id. -/
theorem C6_write_failure_no_confirm_no_retry (f v m : String) (env : Env)
    (rows ps : List Row)
    (h1 : env.loadResult = Except.ok rows)
    (h2 : mapRows v rows = Except.ok ps)
    (h3 : ps ≠ [])
    (h4 : env.writeOutcome = Except.error m) :
    insert_products f v env = ⟨[errorLine f (Exn.writeError m)], [ps], 0⟩ ∧
    f.data <:+: (errorLine f (Exn.writeError m)).data ∧
    m.data <:+: (errorLine f (Exn.writeError m)).data := by
  refine ⟨insert_products_write_error f v m env rows ps h1 h2 h3 h4, ?_, ?_⟩
  · exact ⟨"❌ Error processing ".data, (": " ++ m).data, by
      simp [errorLine, exnMessage, String.data_append]⟩
  · exact ⟨("❌ Error processing " ++ f ++ ": ").data, [], by
      simp [errorLine, exnMessage, String.data_append]⟩

/-- C6 witness: the concrete failing write over the sample row. -/
theorem C6_witness :
    envWriteFail.loadResult = Except.ok [sampleRow] ∧
    mapRows "VEND42" [sampleRow] = Except.ok [sampleProduct42] ∧
    [sampleProduct42] ≠ [] ∧
    envWriteFail.writeOutcome = Except.error "network down" ∧
    (insert_products "f.csv" "VEND42" envWriteFail =
        ⟨[errorLine "f.csv" (Exn.writeError "network down")],
         [[sampleProduct42]], 0⟩ ∧
      "f.csv".data <:+:
        (errorLine "f.csv" (Exn.writeError "network down")).data ∧
      "network down".data <:+:
        (errorLine "f.csv" (Exn.writeError "network down")).data) :=
  ⟨rfl, rfl, by decide, rfl,
    C6_write_failure_no_confirm_no_retry "f.csv" "VEND42" "network down"
      envWriteFail [sampleRow] [sampleProduct42] rfl rfl (by decide) rfl⟩

/-- C7 counterexample: an invocation over a zero-row file prints no console
line at all, not exactly one. -/
theorem C7_counterexample :
    (insert_products "Empty.csv" "v9" envEmptyFile).consoleLines.length = 0 := by
  decide

/-- C7 (amended): every invocation prints at most one console line — either
the success line or an error line — and prints none exactly when the file
loads with zero data rows. -/
theorem C7_console_line_count (f v : String) (env : Env) :
    (insert_products f v env).consoleLines.length ≤ 1 ∧
    ((insert_products f v env).consoleLines = [] ↔
      env.loadResult = Except.ok []) ∧
    ((insert_products f v env).consoleLines = [] ∨
     (∃ n, (insert_products f v env).consoleLines = [successLine f v n] ∧
        (insert_products f v env).confirmed = n ∧
        f.data <:+: (successLine f v n).data ∧
        (toString n).data <:+: (successLine f v n).data) ∨
     (∃ e, (insert_products f v env).consoleLines = [errorLine f e] ∧
        f.data <:+: (errorLine f e).data ∧
        (exnMessage e).data <:+: (errorLine f e).data)) := by
  cases hl : env.loadResult with
  | error m =>
    have hres := insert_products_load_error f v m env hl
    exact ⟨by simp [hres], by simp [hres],
      Or.inr (Or.inr ⟨Exn.loadError m, by simp [hres],
        errorLine_has_file f (Exn.loadError m),
        errorLine_has_cause f (Exn.loadError m)⟩)⟩
  | ok rows =>
    cases hm : mapRows v rows with
    | error e =>
      have hrows : rows ≠ [] := by
        intro h; subst h; simp [mapRows] at hm
      have hres := insert_products_map_error f v env rows e hl hm
      exact ⟨by simp [hres], by simp [hres, hrows],
        Or.inr (Or.inr ⟨e, by simp [hres],
          errorLine_has_file f e, errorLine_has_cause f e⟩)⟩
    | ok ps =>
      by_cases hps : ps = []
      · subst hps
        have hnil := mapRows_ok_nil v rows hm
        subst hnil
        have hres := insert_products_empty f v env hl
        exact ⟨by simp [hres], by simp [hres], Or.inl (by simp [hres])⟩
      · have hrows : rows ≠ [] := by
          intro h
          apply hps
          have hlen := mapRows_length v rows ps hm
          rw [h] at hlen
          exact List.eq_nil_of_length_eq_zero (by simpa using hlen)
        cases hw : env.writeOutcome with
        | ok u =>
          cases u
          have hres := insert_products_success f v env rows ps hl hm hps hw
          exact ⟨by simp [hres], by simp [hres, hrows],
            Or.inr (Or.inl ⟨ps.length, by simp [hres], by simp [hres],
              successLine_has_file f v ps.length,
              successLine_has_count f v ps.length⟩)⟩
        | error m =>
          have hres := insert_products_write_error f v m env rows ps hl hm hps hw
          exact ⟨by simp [hres], by simp [hres, hrows],
            Or.inr (Or.inr ⟨Exn.writeError m, by simp [hres],
              errorLine_has_file f (Exn.writeError m),
              errorLine_has_cause f (Exn.writeError m)⟩)⟩

/-- C8: `insert_products` never lets an exception of the ordinary
`Exception` kind escape: for every file, vendor id and world, the single
catch-all handler absorbs every load, mapping or write fault and the call
returns normally with its result. -/
theorem C8_no_exception_escapes (f v : String) (env : Env) :
    insert_products_run f v env = Except.ok (insert_products f v env) :=
  insert_products_run_eq f v env

/-- C9: for a well-formed file the batch submitted in the bulk write
preserves file order: the i-th record submitted is the mapping of the i-th
data row. -/
theorem C9_submitted_batch_preserves_order (f v : String) (env : Env)
    (rows : List Row)
    (h1 : env.loadResult = Except.ok rows)
    (h2 : WellFormed rows) :
    ∃ ps, mapRows v rows = Except.ok ps ∧
      (rows ≠ [] → (insert_products f v env).writes = [ps]) ∧
      ps.length = rows.length ∧
      ∀ (i : Nat) (hi : i < ps.length) (hi' : i < rows.length),
        mapRow v (rows.get ⟨i, hi'⟩) = Except.ok (ps.get ⟨i, hi⟩) := by
  obtain ⟨ps, hps⟩ := mapRows_ok_of_wf v rows h2
  refine ⟨ps, hps, ?_, mapRows_length v rows ps hps, mapRows_get v rows ps hps⟩
  intro hne
  have hpsne : ps ≠ [] := fun hnil => hne (mapRows_ok_nil v rows (hnil ▸ hps))
  cases hw : env.writeOutcome with
  | ok u =>
    cases u
    simp [insert_products_success f v env rows ps h1 hps hpsne hw]
  | error m =>
    simp [insert_products_write_error f v m env rows ps h1 hps hpsne hw]

/-- C9 witness: the concrete one-row import. -/
theorem C9_witness :
    envOneRow.loadResult = Except.ok [sampleRow] ∧
    WellFormed [sampleRow] ∧
    (∃ ps, mapRows "v1" [sampleRow] = Except.ok ps ∧
      ([sampleRow] ≠ [] →
        (insert_products "vendors_a.csv" "v1" envOneRow).writes = [ps]) ∧
      ps.length = [sampleRow].length ∧
      ∀ (i : Nat) (hi : i < ps.length) (hi' : i < [sampleRow].length),
        mapRow "v1" ([sampleRow].get ⟨i, hi'⟩) =
          Except.ok (ps.get ⟨i, hi⟩)) :=
  ⟨rfl, by decide,
    C9_submitted_batch_preserves_order "vendors_a.csv" "v1" envOneRow
      [sampleRow] rfl (by decide)⟩

/-- C10: every record `insert_products` constructs has exactly the eleven
fields vendor plus the ten mapped product fields, in the dict literal's
order, and every binding is either the vendor binding or a verbatim copy of
one of the ten named source columns — nothing else from the row is copied. -/
theorem C10_record_has_exactly_eleven_fields (v : String) (row p : Row)
    (h : mapRow v row = Except.ok p) :
    p.length = 11 ∧
    p.map Prod.fst =
      ["vendor", "manufacturer", "model", "speed", "description", "cost",
       "installation", "profit_margin", "min_volume", "max_volume",
       "total_machine_cost"] ∧
    ∀ kv ∈ p, kv = ("vendor", v) ∨
      ∃ c ∈ requiredColumns, kv.1 = fieldName c ∧
        rowGet row c = some kv.2 := by
  have hk := mapRow_keys v row p h
  refine ⟨?_, hk, mapRow_mem v row p h⟩
  have hlen := congrArg List.length hk
  simpa using hlen

/-- C10 witness: the sample row maps to `sampleProduct`, which has exactly
the eleven fields. -/
theorem C10_witness :
    mapRow "v1" sampleRow = Except.ok sampleProduct ∧
    (sampleProduct.length = 11 ∧
     sampleProduct.map Prod.fst =
       ["vendor", "manufacturer", "model", "speed", "description", "cost",
        "installation", "profit_margin", "min_volume", "max_volume",
        "total_machine_cost"] ∧
     ∀ kv ∈ sampleProduct, kv = ("vendor", "v1") ∨
       ∃ c ∈ requiredColumns, kv.1 = fieldName c ∧
         rowGet sampleRow c = some kv.2) :=
  ⟨rfl, C10_record_has_exactly_eleven_fields "v1" sampleRow sampleProduct rfl⟩

end UploadProducts
